import Mathlib

/-!
Shallow embedding of the authentication orchestration core of the
`narangcia/cryptic` crate, together with proofs about the spec's claims.

Sources embedded:
  - src/auth_service.rs           (AuthService: login, signup, link/unlink, tokens)
  - src/core/user/persistence/in_memory.rs (InMemoryUserRepo)
  - src/core/password/argon2.rs   (Argon2PasswordManager)
  - src/core/oauth/manager.rs     (OAuth2Manager: parse_user_info, refresh_token)
  - src/core/token/mod.rs         (TokenPair)

The store is modelled as a `List User` (the `Vec<User>` behind the repo's
mutex, in the sequential/non-poisoned regime).  Nondeterministic inputs of the
Rust code (freshly drawn UUIDs, wall-clock timestamps, network responses of
the OAuth2 provider, the token signer) are passed as explicit parameters, so
every definition is a pure, executable function.
-/

namespace Cryptic

/-- OAuth2 providers supported by the crate (src/core/oauth, `OAuth2Provider`). -/
inductive OAuth2Provider
  | Google
  | GitHub
  | Discord
  | Microsoft
deriving DecidableEq, Repr

/-- Minimal model of a `serde_json::Value` as consumed by
`OAuth2Manager::parse_user_info`: indexing a missing key (or a non-object)
yields `null`, and the `as_str` / `as_bool` / `as_u64` accessors return
`none` on a value of the wrong shape. -/
inductive Json
  | null
  | str (s : String)
  | jbool (b : Bool)
  | num (n : Nat)
  | obj (fields : List (String × Json))

/-- Value indexing, `body["key"]` of serde_json: `null` when the key is
absent or the value is not an object. -/
def Json.index (j : Json) (key : String) : Json :=
  match j with
  | .obj fields =>
    match fields.find? (fun f => f.1 == key) with
    | some f => f.2
    | none => .null
  | _ => .null

/-- The `as_str` accessor of serde_json. -/
def Json.as_str : Json → Option String
  | .str s => some s
  | _ => none

/-- The `as_bool` accessor of serde_json. -/
def Json.as_bool : Json → Option Bool
  | .jbool b => some b
  | _ => none

/-- The `as_u64` accessor of serde_json (u64 modelled as `Nat`). -/
def Json.as_u64 : Json → Option Nat
  | .num n => some n
  | _ => none

/-- Local credentials of a User (identifier + password hash), from the
crate's `Credentials` type (src/core/credentials, used throughout
auth_service.rs and the benches). -/
structure Credentials where
  identifier : String
  password_hash : String
deriving DecidableEq, Repr

/-- Normalized OAuth2 profile, `OAuth2UserInfo` of src/core/oauth/store.rs as
constructed by `OAuth2Manager::parse_user_info` (all fields visible there). -/
structure OAuth2UserInfo where
  user_id : String
  provider : OAuth2Provider
  provider_user_id : String
  email : Option String
  name : Option String
  avatar_url : Option String
  verified_email : Option Bool
  locale : Option String
  updated_at : Nat
  raw_data : Option Json

/-- A provider token, `OAuth2Token` of src/core/oauth/store.rs with the
fields used by `OAuth2Manager` (timestamps as `Nat`). -/
structure OAuth2Token where
  access_token : String
  refresh_token : Option String
  expires_at : Option Nat
  token_type : String
  scope : Option String
  provider : OAuth2Provider
  created_at : Nat
deriving DecidableEq, Repr

/-- The `User` of src/core/user: internal id, optional local credentials, a
provider-keyed map of linked external accounts (modelled as an association
list, each provider at most once), and timestamps.  The shape follows the
spec's data model and the uses in auth_service.rs and benches/all_benches.rs
(`credentials` is an `Option`, `oauth_accounts` a `HashMap`). -/
structure User where
  id : String
  credentials : Option Credentials
  oauth_accounts : List (OAuth2Provider × OAuth2UserInfo)
  created_at : Nat
  updated_at : Nat

/-- `User::default()`: empty id, no credentials, no linked accounts. -/
def User.default : User :=
  { id := "", credentials := none, oauth_accounts := [], created_at := 0, updated_at := 0 }

/-- Token pair from src/core/token/mod.rs. -/
structure TokenPair where
  access_token : String
  refresh_token : String
deriving DecidableEq, Repr

/-- The crate's `AuthError` taxonomy.  error.rs is not under src/; the
variants are those constructed in the files under src/ plus the taxonomy of
spec section 7. -/
inductive AuthError
  | InvalidCredentials
  | UserNotFound
  | SignupError (msg : String)
  | ConfigError (msg : String)
  | OAuthTokenExchange (msg : String)
  | OAuthUserInfo (msg : String)
  | OAuthInvalidResponse (msg : String)
  | OAuthNetwork (msg : String)
  | InvalidToken (msg : String)
  | InvalidPassword (msg : String)
  | HashingError (msg : String)
  | VerificationError (msg : String)
  | PasswordVerificationError (msg : String)
deriving DecidableEq, Repr

/-! ## User store (InMemoryUserRepo, src/core/user/persistence/in_memory.rs) -/

/-- `InMemoryUserRepo::add_user`: pushes the user onto the backing `Vec`
unconditionally — there is no uniqueness check of any kind.  The Rust
signature returns `Result<(), String>` whose only error is mutex poisoning,
which the sequential model excludes, so the operation is modelled as total. -/
def add_user (store : List User) (user : User) : List User :=
  store ++ [user]

/-- `InMemoryUserRepo::get_user_by_id`: first user with the given id. -/
def get_user_by_id (store : List User) (id : String) : Option User :=
  store.find? (fun u => u.id == id)

/-- `InMemoryUserRepo::get_user_by_identifier`: first user whose credentials
identifier equals the argument.  in_memory.rs compares
`u.credentials.identifier`; since `credentials` is optional in the crate's
data model, a user without local credentials never matches. -/
def get_user_by_identifier (store : List User) (identifier : String) : Option User :=
  store.find? (fun u =>
    match u.credentials with
    | some c => c.identifier == identifier
    | none => false)

/-- Lookup of the linked account for a provider in a User's account map
(`HashMap::get` semantics on the association-list model). -/
def lookupAccount (accounts : List (OAuth2Provider × OAuth2UserInfo))
    (provider : OAuth2Provider) : Option OAuth2UserInfo :=
  (accounts.find? (fun a => a.1 == provider)).map (fun a => a.2)

/-- Insertion of a linked account (`HashMap::insert` semantics: replaces the
entry for the provider if present, otherwise adds one). -/
def insertAccount (accounts : List (OAuth2Provider × OAuth2UserInfo))
    (provider : OAuth2Provider) (info : OAuth2UserInfo) :
    List (OAuth2Provider × OAuth2UserInfo) :=
  if accounts.any (fun a => a.1 == provider) then
    accounts.map (fun a => if a.1 == provider then (provider, info) else a)
  else
    accounts ++ [(provider, info)]

/-- Modelled from the spec: `get_user_by_oauth_id`, the repository lookup by
(provider, provider-subject-id) pair, is declared on the `UserRepository`
trait (not under src/) and called by auth_service.rs; spec section 4.4 reads
it as returning an optional User matching the external-account pair. -/
def get_user_by_oauth_id (store : List User) (provider : OAuth2Provider)
    (provider_user_id : String) : Option User :=
  store.find? (fun u =>
    match lookupAccount u.oauth_accounts provider with
    | some info => info.provider_user_id == provider_user_id
    | none => false)

/-- Modelled from the spec: `update_user`, the repository update by internal
id, is declared on the `UserRepository` trait (not under src/); spec section
4.4 gives `update(User) -> ok | fails(NotFound)`.  It replaces every stored
user whose id equals the argument's id. -/
def update_user (store : List User) (user : User) : Except AuthError (List User) :=
  if store.any (fun u => u.id == user.id) then
    .ok (store.map (fun u => if u.id == user.id then user else u))
  else
    .error AuthError.UserNotFound

/-! ## Password management (Argon2PasswordManager, src/core/password/argon2.rs) -/

/-- Modelled from the spec: the `Argon2Hasher` hash primitive (src/core/hash,
not under src/) is the opaque hash capability of the Credential Verifier
(spec sections 2 and 6); it is modelled as an injective encoding so that
verification succeeds exactly on the hashed secret. -/
def hasherHash (password : String) : String :=
  "argon2id-" ++ password

/-- Modelled from the spec: the `Argon2Hasher` verify primitive — true
exactly when the secret hashes to the stored hash. -/
def hasherVerify (password hashed : String) : Bool :=
  hashed == hasherHash password

/-- `Argon2PasswordManager::hash_password`: rejects the empty password with
`InvalidPassword`, otherwise hashes. -/
def hash_password (password : String) : Except AuthError String :=
  if password.isEmpty then
    .error (AuthError.InvalidPassword "Password cannot be empty")
  else
    .ok (hasherHash password)

/-- `Argon2PasswordManager::verify_password`: an empty presented password or
an empty stored hash verifies to `false` (not an error), otherwise the
hasher decides. -/
def verify_password (password hashed : String) : Except AuthError Bool :=
  if password.isEmpty || hashed.isEmpty then
    .ok false
  else
    .ok (hasherVerify password hashed)

/-- Modelled from the spec: `User::with_plain_password` (src/core/user, not
under src/) — hash the password via the Credential Verifier and build a user
with the given id and identifier and no linked accounts (spec section 4.1:
signup(Credentials) hashes the password, assigns a fresh internal id); the
signature is visible in benches/all_benches.rs. -/
def User.with_plain_password (id identifier password : String) (now : Nat) :
    Except AuthError User := do
  let hash ← hash_password password
  return { id := id,
           credentials := some { identifier := identifier, password_hash := hash },
           oauth_accounts := [],
           created_at := now,
           updated_at := now }

/-! ## AuthService (src/auth_service.rs)

The service's collaborators that live behind the network or a random source
are passed as explicit parameters:
  - `exchange` stands for `exchange_oauth2_code_for_token` (outcome of the
    provider's code-for-token exchange),
  - `fetch` stands for `fetch_oauth2_user_info` (outcome of the provider's
    user-info endpoint plus `parse_user_info`),
  - `issue` stands for `TokenService::generate_token_pair`,
  - `newId` stands for `uuid::Uuid::new_v4().to_string()`,
  - `now` stands for `chrono::Utc::now()`.
Each operation takes the store as input and returns the (possibly updated)
store next to the Rust return value. -/

/-- `LoginMethod` of src/auth_service.rs. -/
inductive LoginMethod
  | Credentials (identifier password : String)
  | OAuth2 (provider : OAuth2Provider) (code : String) (st : String)

/-- `SignupMethod` of src/auth_service.rs. -/
inductive SignupMethod
  | Credentials (identifier password : String)
  | OAuth2 (provider : OAuth2Provider) (code : String) (st : String)

/-- `AuthService::login` (src/auth_service.rs lines 184-287).  The
Credentials arm looks the user up by identifier, requires stored credentials,
verifies the password and issues tokens; each failure is
`InvalidCredentials`.  The OAuth2 arm exchanges the code, fetches the
profile, and resolves the target user in order: exact (provider,
provider-subject-id) match, then match by email against a local identifier,
then creation of a brand-new user. -/
def login (store : List User)
    (exchange : OAuth2Provider → String → String → Except AuthError OAuth2Token)
    (fetch : OAuth2Token → Except AuthError OAuth2UserInfo)
    (issue : String → TokenPair) (newId : String) (now : Nat)
    (method : LoginMethod) :
    Except AuthError (User × TokenPair × List User) :=
  match method with
  | .Credentials identifier password => do
    let stored_user ←
      match get_user_by_identifier store identifier with
      | some u => Except.ok u
      | none => Except.error AuthError.InvalidCredentials
    let credentials ←
      match stored_user.credentials with
      | some c => Except.ok c
      | none => Except.error AuthError.InvalidCredentials
    let is_valid ←
      match verify_password password credentials.password_hash with
      | .ok b => Except.ok b
      | .error _ =>
        Except.error (AuthError.PasswordVerificationError "Password verification failed")
    if !is_valid then
      Except.error AuthError.InvalidCredentials
    else
      let tokens := issue stored_user.id
      return (stored_user, tokens, store)
  | .OAuth2 provider code st => do
    let oauth_token ← exchange provider code st
    let oauth_user_info ← fetch oauth_token
    match get_user_by_oauth_id store provider oauth_user_info.provider_user_id with
    | some u =>
      let user : User :=
        { u with oauth_accounts := insertAccount u.oauth_accounts provider oauth_user_info,
                 updated_at := now }
      let store' ← update_user store user
      let tokens := issue user.id
      return (user, tokens, store')
    | none =>
      let existing_user_by_email :=
        match oauth_user_info.email with
        | some email => get_user_by_identifier store email
        | none => none
      match existing_user_by_email with
      | some u =>
        let user : User :=
          { u with oauth_accounts := insertAccount u.oauth_accounts provider oauth_user_info,
                   updated_at := now }
        let store' ← update_user store user
        let tokens := issue user.id
        return (user, tokens, store')
      | none =>
        let new_user : User :=
          { User.default with
              id := newId,
              oauth_accounts := insertAccount User.default.oauth_accounts provider oauth_user_info,
              created_at := now,
              updated_at := now }
        let store' := add_user store new_user
        let tokens := issue new_user.id
        return (new_user, tokens, store')

/-- `AuthService::signup` (src/auth_service.rs lines 301-392).  The
Credentials arm builds a user via `User::with_plain_password` (hashing may
fail), registers it via `add_user` (an `add_user` error would be wrapped as
`SignupError`, but the in-memory `add_user` cannot fail) and issues tokens.
The OAuth2 arm is textually identical to the OAuth2 arm of `login`. -/
def signup (store : List User)
    (exchange : OAuth2Provider → String → String → Except AuthError OAuth2Token)
    (fetch : OAuth2Token → Except AuthError OAuth2UserInfo)
    (issue : String → TokenPair) (newId : String) (now : Nat)
    (method : SignupMethod) :
    Except AuthError (User × TokenPair × List User) :=
  match method with
  | .Credentials identifier password => do
    let user ← User.with_plain_password newId identifier password now
    let store' := add_user store user
    let tokens := issue user.id
    return (user, tokens, store')
  | .OAuth2 provider code st => do
    let oauth_token ← exchange provider code st
    let oauth_user_info ← fetch oauth_token
    match get_user_by_oauth_id store provider oauth_user_info.provider_user_id with
    | some u =>
      let user : User :=
        { u with oauth_accounts := insertAccount u.oauth_accounts provider oauth_user_info,
                 updated_at := now }
      let store' ← update_user store user
      let tokens := issue user.id
      return (user, tokens, store')
    | none =>
      let existing_user_by_email :=
        match oauth_user_info.email with
        | some email => get_user_by_identifier store email
        | none => none
      match existing_user_by_email with
      | some u =>
        let user : User :=
          { u with oauth_accounts := insertAccount u.oauth_accounts provider oauth_user_info,
                   updated_at := now }
        let store' ← update_user store user
        let tokens := issue user.id
        return (user, tokens, store')
      | none =>
        let new_user : User :=
          { User.default with
              id := newId,
              oauth_accounts := insertAccount User.default.oauth_accounts provider oauth_user_info,
              created_at := now,
              updated_at := now }
        let store' := add_user store new_user
        let tokens := issue new_user.id
        return (new_user, tokens, store')

/-- Modelled from the spec: `User::unlink_oauth_account` (src/core/user, not
under src/) — remove the link for that provider if present (spec section
4.1, unlink-account). -/
def User.unlink_oauth_account (u : User) (provider : OAuth2Provider) : User :=
  { u with oauth_accounts := u.oauth_accounts.filter (fun a => !(a.1 == provider)) }

/-- `AuthService::unlink_oauth_account` (src/auth_service.rs lines 596-615):
load the user by id (`UserNotFound` if absent), remove the provider's link,
persist, return the updated user. -/
def unlink_oauth_account (store : List User) (user_id : String)
    (provider : OAuth2Provider) : Except AuthError (User × List User) := do
  let user ←
    match get_user_by_id store user_id with
    | some u => Except.ok u
    | none => Except.error AuthError.UserNotFound
  let user := user.unlink_oauth_account provider
  let store' ← update_user store user
  return (user, store')

/-! ## OAuth2Manager (src/core/oauth/manager.rs) -/

/-- `OAuth2Manager::parse_user_info` (src/core/oauth/manager.rs lines
205-331): provider-specific normalization of the user-info JSON into an
`OAuth2UserInfo`.  The provider-subject-id is required (`OAuthInvalidResponse`
when absent); every other profile field is optional. -/
def parse_user_info (provider : OAuth2Provider) (response_body : Json) (now : Nat) :
    Except AuthError OAuth2UserInfo :=
  match provider with
  | .Google =>
    let email := (response_body.index "email").as_str
    let name := (response_body.index "name").as_str
    let avatar_url := (response_body.index "picture").as_str
    let verified_email := (response_body.index "verified_email").as_bool
    let locale := (response_body.index "locale").as_str
    match (response_body.index "id").as_str with
    | none => .error (AuthError.OAuthInvalidResponse "Missing user ID")
    | some provider_user_id =>
      .ok { user_id := "",
            provider := .Google,
            provider_user_id := provider_user_id,
            email := email,
            name := name,
            avatar_url := avatar_url,
            verified_email := verified_email,
            locale := locale,
            updated_at := now,
            raw_data := some response_body }
  | .GitHub =>
    let name := (response_body.index "name").as_str
    let avatar_url := (response_body.index "avatar_url").as_str
    match (response_body.index "id").as_u64 with
    | none => .error (AuthError.OAuthInvalidResponse "Missing user ID")
    | some id_num =>
      let provider_user_id := toString id_num
      let email :=
        match (response_body.index "email").as_str with
        | some email_str => if !email_str.isEmpty then some email_str else none
        | none => none
      .ok { user_id := "",
            provider := .GitHub,
            provider_user_id := provider_user_id,
            email := email,
            name := name,
            avatar_url := avatar_url,
            verified_email := none,
            locale := none,
            updated_at := now,
            raw_data := some response_body }
  | .Discord =>
    let email := (response_body.index "email").as_str
    let name := (response_body.index "username").as_str
    let avatar := (response_body.index "avatar").as_str
    match (response_body.index "id").as_str with
    | none => .error (AuthError.OAuthInvalidResponse "Missing user ID")
    | some provider_user_id =>
      let avatar_url := avatar.map (fun avatar_hash =>
        "https://cdn.discordapp.com/avatars/" ++ provider_user_id ++ "/" ++ avatar_hash ++ ".png")
      let verified_email := (response_body.index "verified").as_bool
      let locale := (response_body.index "locale").as_str
      .ok { user_id := "",
            provider := .Discord,
            provider_user_id := provider_user_id,
            email := email,
            name := name,
            avatar_url := avatar_url,
            verified_email := verified_email,
            locale := locale,
            updated_at := now,
            raw_data := some response_body }
  | .Microsoft =>
    let email :=
      match (response_body.index "mail").as_str with
      | some s => some s
      | none => (response_body.index "userPrincipalName").as_str
    let name := (response_body.index "displayName").as_str
    match (response_body.index "id").as_str with
    | none => .error (AuthError.OAuthInvalidResponse "Missing user ID")
    | some provider_user_id =>
      .ok { user_id := "",
            provider := .Microsoft,
            provider_user_id := provider_user_id,
            email := email,
            name := name,
            avatar_url := none,
            verified_email := none,
            locale := none,
            updated_at := now,
            raw_data := some response_body }

/-- The fields of the provider's token-endpoint response used by
`OAuth2Manager::refresh_token` (the `StandardTokenResponse` accessors
`access_token`, `refresh_token`, `expires_in`, `token_type`, `scopes`). -/
structure ProviderTokenResp where
  access_token : String
  refresh_token : Option String
  expires_in : Option Nat
  token_type : String
  scopes : Option (List String)
deriving DecidableEq, Repr

/-- Space-joining of the scope list, as in manager.rs
(`scopes.iter().map(to_string).collect().join(" ")`). -/
def joinScopes (scopes : List String) : String :=
  String.intercalate " " scopes

/-- `OAuth2Manager::refresh_token` (src/core/oauth/manager.rs lines 517-578):
requires a stored refresh token (`OAuthTokenExchange` error if absent),
performs the provider exchange (its outcome passed as `exchangeRes`), and
builds the new token: the new refresh token falls back to the input's, the
scope falls back to the input's, and the provider is carried over. -/
def refresh_token (token : OAuth2Token)
    (exchangeRes : Except AuthError ProviderTokenResp) (now : Nat) :
    Except AuthError OAuth2Token := do
  let _refresh ←
    match token.refresh_token with
    | some r => Except.ok r
    | none => Except.error (AuthError.OAuthTokenExchange "No refresh token available")
  let token_result ← exchangeRes
  let access_token := token_result.access_token
  let new_refresh_token :=
    (token_result.refresh_token).orElse (fun _ => token.refresh_token)
  let expires_at := token_result.expires_in.map (fun d => now + d)
  let token_type := token_result.token_type
  let scope := (token_result.scopes.map joinScopes).orElse (fun _ => token.scope)
  return { access_token := access_token,
           refresh_token := new_refresh_token,
           expires_at := expires_at,
           token_type := token_type,
           scope := scope,
           provider := token.provider,
           created_at := now }

/-! ## Abstract view of the Credentials login arm

`AuthService` holds its repository behind a trait object, so the Credentials
arm of `login` is generic in the lookup; `login_credentials_with` is that arm
abstracted over `get_user_by_identifier` of the concrete store.  It lets the
branch for a found user without stored credentials be stated on its own
(that branch of auth_service.rs is reachable only through repository
implementations other than the in-memory one). -/

/-- The Credentials arm of `AuthService::login`, abstracted over the
repository lookup.  Returns the Rust return value `(User, TokenPair)`; the
store is not modified by this arm. -/
def login_credentials_with (lookup : String → Option User) (issue : String → TokenPair)
    (identifier password : String) : Except AuthError (User × TokenPair) := do
  let stored_user ←
    match lookup identifier with
    | some u => Except.ok u
    | none => Except.error AuthError.InvalidCredentials
  let credentials ←
    match stored_user.credentials with
    | some c => Except.ok c
    | none => Except.error AuthError.InvalidCredentials
  let is_valid ←
    match verify_password password credentials.password_hash with
    | .ok b => Except.ok b
    | .error _ =>
      Except.error (AuthError.PasswordVerificationError "Password verification failed")
  if !is_valid then
    Except.error AuthError.InvalidCredentials
  else
    let tokens := issue stored_user.id
    return (stored_user, tokens)

/-! ## Concrete fixtures used by witnesses and counterexamples -/

/-- A concrete token issuer standing for `generate_token_pair`. -/
def issue0 : String → TokenPair :=
  fun id => { access_token := "acc-" ++ id, refresh_token := "ref-" ++ id }

/-- A concrete exchange oracle for flows that never reach the OAuth2 arm. -/
def exch0 : OAuth2Provider → String → String → Except AuthError OAuth2Token :=
  fun _ _ _ => .error (AuthError.OAuthTokenExchange "unused")

/-- A concrete fetch oracle for flows that never reach the OAuth2 arm. -/
def fetch0 : OAuth2Token → Except AuthError OAuth2UserInfo :=
  fun _ => .error (AuthError.OAuthUserInfo "unused")

/-- The user created by the first signup of the duplicate-identifier run. -/
def bobOne : User :=
  { id := "id1",
    credentials := some { identifier := "bob", password_hash := hasherHash "pw1" },
    oauth_accounts := [], created_at := 0, updated_at := 0 }

/-- The user created by the second signup of the duplicate-identifier run. -/
def bobTwo : User :=
  { id := "id2",
    credentials := some { identifier := "bob", password_hash := hasherHash "pw2" },
    oauth_accounts := [], created_at := 1, updated_at := 1 }

/-- A pre-existing user holding identifier "bob" with a different password. -/
def c4Old : User :=
  { id := "old",
    credentials := some { identifier := "bob", password_hash := hasherHash "other" },
    oauth_accounts := [], created_at := 0, updated_at := 0 }

/-- The user created by signing up "bob"/"pw1" next to `c4Old`. -/
def c4New : User :=
  { id := "new",
    credentials := some { identifier := "bob", password_hash := hasherHash "pw1" },
    oauth_accounts := [], created_at := 1, updated_at := 1 }

/-- A freshly signed-up user with a fresh identifier. -/
def c4Fresh : User :=
  { id := "u1",
    credentials := some { identifier := "carol", password_hash := hasherHash "pw" },
    oauth_accounts := [], created_at := 0, updated_at := 0 }

/-- A stored user whose stored password hash is the empty string. -/
def eveEmptyHash : User :=
  { id := "e1",
    credentials := some { identifier := "eve", password_hash := "" },
    oauth_accounts := [], created_at := 0, updated_at := 0 }

/-- A stale linked-account profile for provider-subject g1. -/
def g1OldInfo : OAuth2UserInfo :=
  { user_id := "", provider := .Google, provider_user_id := "g1",
    email := none, name := some "Old Name", avatar_url := none,
    verified_email := none, locale := none, updated_at := 0, raw_data := none }

/-- A fresh profile for provider-subject g1. -/
def g1FreshInfo : OAuth2UserInfo :=
  { user_id := "", provider := .Google, provider_user_id := "g1",
    email := some "alice@example.com", name := some "Alice",
    avatar_url := some "https://a.example/p.png",
    verified_email := some true, locale := some "en",
    updated_at := 5, raw_data := none }

/-- A user already linked to provider-subject g1 on Google. -/
def gUser : User :=
  { id := "u1", credentials := none,
    oauth_accounts := [(.Google, g1OldInfo)],
    created_at := 0, updated_at := 0 }

/-- A provider token fixture. -/
def gTok : OAuth2Token :=
  { access_token := "at", refresh_token := none, expires_at := none,
    token_type := "Bearer", scope := none, provider := .Google, created_at := 0 }

/-- A minimal linked-account profile for an OAuth2-only user. -/
def soleInfo : OAuth2UserInfo :=
  { user_id := "", provider := .Google, provider_user_id := "g9",
    email := none, name := none, avatar_url := none,
    verified_email := none, locale := none, updated_at := 0, raw_data := none }

/-- A user whose only identity is one linked Google account. -/
def soleUser : User :=
  { id := "u3", credentials := none,
    oauth_accounts := [(.Google, soleInfo)],
    created_at := 0, updated_at := 0 }

/-- `soleUser` after its only link has been removed: no identity left. -/
def strippedUser : User :=
  { id := "u3", credentials := none, oauth_accounts := [],
    created_at := 0, updated_at := 0 }

/-- An input token for the refresh fixture, holding a refresh token and a
scope. -/
def rTok : OAuth2Token :=
  { access_token := "a", refresh_token := some "r", expires_at := none,
    token_type := "Bearer", scope := some "s1", provider := .Google, created_at := 0 }

/-- A provider refresh response carrying neither a refresh token nor scopes. -/
def rResp : ProviderTokenResp :=
  { access_token := "a2", refresh_token := none, expires_in := none,
    token_type := "Bearer", scopes := none }

/-- The token produced by refreshing `rTok` with `rResp` at time 5. -/
def rOut : OAuth2Token :=
  { access_token := "a2", refresh_token := some "r", expires_at := none,
    token_type := "Bearer", scope := some "s1", provider := .Google, created_at := 5 }

/-! ## Helper lemmas -/

/-- The hash of any password is a non-empty string. -/
theorem hasherHash_isEmpty (p : String) : (hasherHash p).isEmpty = false := by
  cases h : (hasherHash p).isEmpty with
  | false => rfl
  | true =>
    have h2 : hasherHash p = "" := (String.isEmpty_iff _).mp h
    have h3 := congrArg String.length h2
    rw [hasherHash, String.length_append] at h3
    simp only [show ("argon2id-" : String).length = 9 from rfl,
      show ("" : String).length = 0 from rfl] at h3
    omega

/-- Verifying a password against its own hash succeeds. -/
theorem verify_password_hash (p : String) (hp : p.isEmpty = false) :
    verify_password p (hasherHash p) = .ok true := by
  unfold verify_password hasherVerify
  rw [hp, hasherHash_isEmpty]
  simp

/-- Updating a user whose id is the id of some stored user rewrites every
stored user with that id. -/
theorem update_user_of_mem (store : List User) (v w : User)
    (hw : w ∈ store) (hid : w.id = v.id) :
    update_user store v = .ok (store.map (fun x => if x.id == v.id then v else x)) := by
  have hpw : (w.id == v.id) = true := beq_iff_eq.mpr hid
  have hany : (store.any fun u => u.id == v.id) = true := by
    rw [List.any_eq_true]
    exact ⟨w, hw, hpw⟩
  unfold update_user
  rw [hany]
  simp

/-- After replacing the users carrying the found id, the id lookup finds the
replacement. -/
theorem find?_map_update (store : List User) (uid : String) (u0 v : User)
    (hfind : store.find? (fun x => x.id == uid) = some u0)
    (hid : v.id = u0.id) :
    (store.map (fun x => if x.id == v.id then v else x)).find? (fun x => x.id == uid) =
      some v := by
  induction store with
  | nil => simp at hfind
  | cons hd tl ih =>
    simp only [List.find?_cons] at hfind
    cases hp : (hd.id == uid) with
    | true =>
      rw [hp] at hfind
      have hhd : hd = u0 := by simpa using hfind
      have hdid : hd.id = uid := beq_iff_eq.mp hp
      have hvid : (hd.id == v.id) = true := beq_iff_eq.mpr (by rw [hid, ← hhd])
      have hvuid : (v.id == uid) = true := beq_iff_eq.mpr (by rw [hid, ← hhd]; exact hdid)
      simp only [List.map_cons, List.find?_cons, hvid, if_true]
      simp [hvuid]
    | false =>
      rw [hp] at hfind
      replace hfind : List.find? (fun x => x.id == uid) tl = some u0 := hfind
      have hu0 : (u0.id == uid) = true := by
        have := List.find?_some hfind
        simpa using this
      have hne : (hd.id == v.id) = false := by
        cases hx : (hd.id == v.id) with
        | false => rfl
        | true =>
          have : hd.id = uid := by rw [beq_iff_eq.mp hx, hid]; exact beq_iff_eq.mp hu0
          rw [beq_iff_eq.mpr this] at hp
          exact hp
      rw [List.map_cons]
      have hfhd : (if (hd.id == v.id) = true then v else hd) = hd := by simp [hne]
      rw [hfhd, List.find?_cons, hp]
      exact ih hfind

/-- Rewriting users with a given id twice is the same as rewriting once. -/
theorem map_update_twice (store : List User) (v : User) :
    (store.map (fun x => if x.id == v.id then v else x)).map
        (fun x => if x.id == v.id then v else x) =
      store.map (fun x => if x.id == v.id then v else x) := by
  rw [List.map_map]
  apply List.map_congr_left
  intro x _
  by_cases hx : (x.id == v.id) = true
  · simp [Function.comp, hx]
  · simp [Function.comp, hx]

/-- Removing an absent link does not change the user. -/
theorem unlink_noop_of_no_link (u : User) (provider : OAuth2Provider)
    (h : lookupAccount u.oauth_accounts provider = none) :
    u.unlink_oauth_account provider = u := by
  unfold User.unlink_oauth_account
  have hfind : u.oauth_accounts.find? (fun a => a.1 == provider) = none := by
    unfold lookupAccount at h
    exact Option.map_eq_none'.mp h
  have hall := List.find?_eq_none.mp hfind
  have : u.oauth_accounts.filter (fun a => !(a.1 == provider)) = u.oauth_accounts := by
    apply List.filter_eq_self.mpr
    intro a ha
    have := hall a ha
    simp only [Bool.not_eq_true] at this
    simp [this]
  rw [this]

/-- Removing a link is idempotent on the user. -/
theorem unlink_idem (u : User) (provider : OAuth2Provider) :
    (u.unlink_oauth_account provider).unlink_oauth_account provider =
      u.unlink_oauth_account provider := by
  unfold User.unlink_oauth_account
  rw [List.filter_filter]
  simp

/-- Inserting a link makes it the one retrieved for that provider. -/
theorem lookupAccount_insertAccount (accounts : List (OAuth2Provider × OAuth2UserInfo))
    (p : OAuth2Provider) (i : OAuth2UserInfo) :
    lookupAccount (insertAccount accounts p i) p = some i := by
  unfold lookupAccount insertAccount
  cases h : accounts.any (fun a => a.1 == p) with
  | true =>
    rw [if_pos rfl]
    induction accounts with
    | nil => simp at h
    | cons hd tl ih =>
      cases hp : (hd.1 == p) with
      | true =>
        rw [List.map_cons]
        have hfhd : (if (hd.1 == p) = true then (p, i) else hd) = (p, i) := by simp [hp]
        rw [hfhd, List.find?_cons, show ((p, i).1 == p) = true from beq_self_eq_true p]
        rfl
      | false =>
        rw [List.any_cons, hp] at h
        have htl : tl.any (fun a => a.1 == p) = true := by simpa using h
        rw [List.map_cons]
        have hfhd : (if (hd.1 == p) = true then (p, i) else hd) = hd := by simp [hp]
        rw [hfhd, List.find?_cons, hp]
        exact ih htl
  | false =>
    rw [if_neg (by simp)]
    have hfind : accounts.find? (fun a => a.1 == p) = none := by
      apply List.find?_eq_none.mpr
      intro a ha hpa
      have htrue : accounts.any (fun a => a.1 == p) = true :=
        List.any_eq_true.mpr ⟨a, ha, hpa⟩
      rw [h] at htrue
      simp at htrue
    simp only [List.find?_append, hfind, Option.none_or, List.find?_cons]
    simp

/-- Inserting a link leaves the account map non-empty. -/
theorem insertAccount_ne_nil (accounts : List (OAuth2Provider × OAuth2UserInfo))
    (p : OAuth2Provider) (i : OAuth2UserInfo) :
    insertAccount accounts p i ≠ [] := by
  unfold insertAccount
  by_cases h : accounts.any (fun a => a.1 == p) = true
  · rw [if_pos h]
    intro hmap
    rw [List.map_eq_nil_iff] at hmap
    rw [hmap] at h
    simp at h
  · rw [if_neg h]
    simp

/-- Bind of a success in the Except monad. -/
theorem bindOk {α β : Type} (a : α) (f : α → Except AuthError β) :
    (Except.ok a >>= f) = f a := rfl

/-- Bind of a failure in the Except monad. -/
theorem bindErr {α β : Type} (e : AuthError) (f : α → Except AuthError β) :
    ((Except.error e : Except AuthError α) >>= f) = Except.error e := rfl

/-- Pure in the Except monad. -/
theorem pureOk {α : Type} (a : α) : (pure a : Except AuthError α) = Except.ok a := rfl

/-- Map of a success in the Except monad. -/
theorem mapOk {α β : Type} (a : α) (f : α → β) :
    Except.map f (Except.ok a : Except AuthError α) = Except.ok (f a) := rfl

/-- Map of a failure in the Except monad. -/
theorem mapErr {α β : Type} (e : AuthError) (f : α → β) :
    Except.map f (Except.error e : Except AuthError α) = Except.error e := rfl

/-! ## Claims -/

/-- Claim C6: the OAuth2 arm of login and the OAuth2 arm of signup execute
the identical resolution algorithm: for every provider, code, state, store
and every outcome of the delegated exchange and fetch steps, they produce
the same (User, TokenPair)-or-error and the same store updates. -/
theorem c6_oauth2_login_signup_identical
    (store : List User)
    (exchange : OAuth2Provider → String → String → Except AuthError OAuth2Token)
    (fetch : OAuth2Token → Except AuthError OAuth2UserInfo)
    (issue : String → TokenPair) (newId : String) (now : Nat)
    (provider : OAuth2Provider) (code st : String) :
    login store exchange fetch issue newId now (LoginMethod.OAuth2 provider code st) =
      signup store exchange fetch issue newId now (SignupMethod.OAuth2 provider code st) :=
  rfl

/-- Claim C1: the spec says the second signup with an already-used
identifier fails with SignupError and that the store never contains two
Users with equal identifiers.  The code violates this: `add_user` of the
in-memory store pushes without any uniqueness check, so both signups
succeed, and the store afterwards holds two distinct Users whose
credentials identifier is "bob". -/
theorem c1_duplicate_identifier_signup :
    signup [] exch0 fetch0 issue0 "id1" 0 (SignupMethod.Credentials "bob" "pw1") =
      .ok (bobOne, issue0 "id1", [bobOne]) ∧
    signup [bobOne] exch0 fetch0 issue0 "id2" 1 (SignupMethod.Credentials "bob" "pw2") =
      .ok (bobTwo, issue0 "id2", [bobOne, bobTwo]) ∧
    (bobOne.id == bobTwo.id) = false ∧
    bobOne.credentials.map Credentials.identifier = some "bob" ∧
    bobTwo.credentials.map Credentials.identifier = some "bob" := by
  refine ⟨rfl, rfl, ?_, rfl, rfl⟩
  decide

/-- Claim C10: on a successful provider-token refresh, absence of a fresh
refresh token in the provider response keeps the input token's refresh
token, absence of scopes keeps the input token's scope, and the provider is
always carried over from the input token. -/
theorem c10_refresh_preserves_fields (token : OAuth2Token) (tr : ProviderTokenResp)
    (now : Nat) (out : OAuth2Token)
    (h : refresh_token token (Except.ok tr) now = Except.ok out) :
    (tr.refresh_token = none → out.refresh_token = token.refresh_token) ∧
    (tr.scopes = none → out.scope = token.scope) ∧
    out.provider = token.provider := by
  unfold refresh_token at h
  cases htok : token.refresh_token with
  | none =>
    rw [htok] at h
    exact Except.noConfusion h
  | some r =>
    rw [htok] at h
    replace h : Except.ok
        ({ access_token := tr.access_token,
           refresh_token := tr.refresh_token.orElse (fun _ => some r),
           expires_at := tr.expires_in.map (fun d => now + d),
           token_type := tr.token_type,
           scope := (tr.scopes.map joinScopes).orElse (fun _ => token.scope),
           provider := token.provider,
           created_at := now } : OAuth2Token) = Except.ok out := h
    injection h with h1
    subst h1
    refine ⟨?_, ?_, rfl⟩
    · intro hx
      rw [hx]
      rfl
    · intro hx
      rw [hx]
      rfl

/-- Claim C5: in the Credentials login every failure — unknown identifier,
found User without stored credentials, non-verifying password — is the very
same error value InvalidCredentials (indistinguishable to the caller), and
the full login is exactly the abstracted Credentials arm composed with the
store lookup (the store left unchanged). -/
theorem c5_invalid_credentials_indistinguishable
    (lookup : String → Option User) (issue : String → TokenPair)
    (identifier password : String) (u : User) (c : Credentials) :
    (lookup identifier = none →
      login_credentials_with lookup issue identifier password =
        .error AuthError.InvalidCredentials) ∧
    (lookup identifier = some u → u.credentials = none →
      login_credentials_with lookup issue identifier password =
        .error AuthError.InvalidCredentials) ∧
    (lookup identifier = some u → u.credentials = some c →
      verify_password password c.password_hash = .ok false →
      login_credentials_with lookup issue identifier password =
        .error AuthError.InvalidCredentials) ∧
    (∀ store exchange fetch newId now,
      login store exchange fetch issue newId now
          (LoginMethod.Credentials identifier password) =
        (login_credentials_with (get_user_by_identifier store) issue identifier password).map
          (fun r => (r.1, r.2, store))) := by
  refine ⟨?_, ?_, ?_, ?_⟩
  · intro h
    simp only [login_credentials_with, h, bindErr]
  · intro h1 h2
    simp only [login_credentials_with, h1, h2, bindOk, bindErr]
  · intro h1 h2 h3
    simp only [login_credentials_with, h1, h2, h3, bindOk, bindErr]
    simp
  · intro store exchange fetch newId now
    simp only [login, login_credentials_with]
    cases h : get_user_by_identifier store identifier with
    | none => rfl
    | some w =>
      dsimp only [bindOk]
      cases hc : w.credentials with
      | none => rfl
      | some c2 =>
        dsimp only [bindOk]
        cases hv : verify_password password c2.password_hash with
        | error e => rfl
        | ok b =>
          dsimp only [bindOk]
          cases b with
          | false => rfl
          | true => rfl

/-- Witness for claim C5: a lookup that knows no identifier makes login fail
with InvalidCredentials. -/
theorem c5_witness :
    login_credentials_with (fun _ => none) issue0 "bob" "pw" =
      .error AuthError.InvalidCredentials :=
  (c5_invalid_credentials_indistinguishable (fun _ => none) issue0 "bob" "pw"
    User.default { identifier := "x", password_hash := "y" }).1 rfl

/-- Witness for claim C10: refreshing the concrete token `rTok` against a
response with no refresh token and no scopes keeps both fields and the
provider. -/
theorem c10_witness :
    rOut.refresh_token = rTok.refresh_token ∧ rOut.scope = rTok.scope ∧
      rOut.provider = rTok.provider := by
  have h := c10_refresh_preserves_fields rTok rResp 5 rOut rfl
  exact ⟨h.1 rfl, h.2.1 rfl, h.2.2⟩

/-- Claim C9: a Credentials signup with the empty password fails with
InvalidPassword (the embedded signup yields an updated store only on
success, so no User is added), and password verification with an empty
presented password or an empty stored hash returns false rather than an
internal error, making the corresponding logins fail with
InvalidCredentials. -/
theorem c9_empty_password
    (store : List User)
    (exchange : OAuth2Provider → String → String → Except AuthError OAuth2Token)
    (fetch : OAuth2Token → Except AuthError OAuth2UserInfo)
    (issue : String → TokenPair) (newId : String) (now : Nat)
    (identifier password : String) (u : User) (c : Credentials) :
    (signup store exchange fetch issue newId now (SignupMethod.Credentials identifier "") =
      .error (AuthError.InvalidPassword "Password cannot be empty")) ∧
    (∀ hashed, verify_password "" hashed = .ok false) ∧
    (verify_password password "" = .ok false) ∧
    (get_user_by_identifier store identifier = some u → u.credentials = some c →
      login store exchange fetch issue newId now (LoginMethod.Credentials identifier "") =
        .error AuthError.InvalidCredentials) ∧
    (get_user_by_identifier store identifier = some u → u.credentials = some c →
      c.password_hash = "" →
      login store exchange fetch issue newId now (LoginMethod.Credentials identifier password) =
        .error AuthError.InvalidCredentials) := by
  have hv1 : ∀ hashed, verify_password "" hashed = Except.ok false := by
    intro hashed
    unfold verify_password
    rw [show ("" : String).isEmpty = true from rfl]
    simp
  have hv2 : verify_password password "" = Except.ok false := by
    unfold verify_password
    rw [show ("" : String).isEmpty = true from rfl]
    simp
  refine ⟨rfl, hv1, hv2, ?_, ?_⟩
  · intro h1 h2
    simp only [login, h1, bindOk, h2, hv1 c.password_hash]
    rfl
  · intro h1 h2 h3
    simp only [login, h1, bindOk, h2, h3, hv2]
    rfl

/-- Witness for claim C9: a stored user whose hash is the empty string makes
login fail with InvalidCredentials instead of an internal error. -/
theorem c9_witness :
    login [eveEmptyHash] exch0 fetch0 issue0 "n" 3 (LoginMethod.Credentials "eve" "pw") =
      .error AuthError.InvalidCredentials :=
  (c9_empty_password [eveEmptyHash] exch0 fetch0 issue0 "n" 3 "eve" "pw" eveEmptyHash
    { identifier := "eve", password_hash := "" }).2.2.2.2 rfl rfl rfl

/-- Counterexample to claim C4 as stated: the store already holds a "bob"
with a different password; signup of "bob"/"pw1" succeeds (no uniqueness
check), yet login with that very pair fails, because the lookup returns the
first stored "bob" whose hash does not verify. -/
theorem c4_counterexample :
    signup [c4Old] exch0 fetch0 issue0 "new" 1 (SignupMethod.Credentials "bob" "pw1") =
      .ok (c4New, issue0 "new", [c4Old, c4New]) ∧
    login [c4Old, c4New] exch0 fetch0 issue0 "n" 2 (LoginMethod.Credentials "bob" "pw1") =
      .error AuthError.InvalidCredentials :=
  ⟨rfl, rfl⟩

/-- Claim C4 (amended): provided no stored User already carries the
identifier, a successful Credentials signup is followed by a successful
Credentials login with the same pair: login returns the signed-up User, the
token pair for its internal id, and leaves the store unchanged — hence any
repetition of the login returns that same internal id. -/
theorem c4_signup_login_roundtrip
    (store : List User)
    (exchange exchange2 : OAuth2Provider → String → String → Except AuthError OAuth2Token)
    (fetch fetch2 : OAuth2Token → Except AuthError OAuth2UserInfo)
    (issue : String → TokenPair) (newId newId2 : String) (now now2 : Nat)
    (identifier password : String) (u : User) (tp : TokenPair) (s' : List User)
    (hfresh : get_user_by_identifier store identifier = none)
    (hsign : signup store exchange fetch issue newId now
        (SignupMethod.Credentials identifier password) = .ok (u, tp, s')) :
    login s' exchange2 fetch2 issue newId2 now2
        (LoginMethod.Credentials identifier password) = .ok (u, issue u.id, s') := by
  simp only [signup, User.with_plain_password, hash_password] at hsign
  cases hp : password.isEmpty with
  | true =>
    rw [hp] at hsign
    simp only [eq_self_iff_true, if_true, bindErr] at hsign
    exact Except.noConfusion hsign
  | false =>
    rw [hp] at hsign
    replace hsign : Except.ok
        (({ id := newId,
            credentials := some { identifier := identifier,
                                  password_hash := hasherHash password },
            oauth_accounts := [], created_at := now, updated_at := now } : User),
         issue newId,
         add_user store
           { id := newId,
             credentials := some { identifier := identifier,
                                   password_hash := hasherHash password },
             oauth_accounts := [], created_at := now, updated_at := now }) =
        Except.ok (u, tp, s') := hsign
    injection hsign with h1
    simp only [Prod.mk.injEq] at h1
    obtain ⟨hu, htp, hs⟩ := h1
    subst hu
    subst htp
    subst hs
    have hlook : get_user_by_identifier (add_user store
        { id := newId,
          credentials := some { identifier := identifier,
                                password_hash := hasherHash password },
          oauth_accounts := [], created_at := now, updated_at := now }) identifier =
        some { id := newId,
               credentials := some { identifier := identifier,
                                     password_hash := hasherHash password },
               oauth_accounts := [], created_at := now, updated_at := now } := by
      unfold get_user_by_identifier at hfresh ⊢
      unfold add_user
      rw [List.find?_append, hfresh, Option.none_or, List.find?_cons]
      simp
    simp only [login, hlook, bindOk, verify_password_hash password hp]
    rfl

/-- Witness for claim C4 (amended): signing "carol"/"pw" into the empty
store and logging in with the same pair returns the signed-up user. -/
theorem c4_witness :
    login [c4Fresh] exch0 fetch0 issue0 "n" 7 (LoginMethod.Credentials "carol" "pw") =
      .ok (c4Fresh, issue0 "u1", [c4Fresh]) :=
  c4_signup_login_roundtrip [] exch0 exch0 fetch0 fetch0 issue0 "u1" "n" 0 7 "carol" "pw"
    c4Fresh (issue0 "u1") [c4Fresh] rfl rfl

/-- Claim C2: the OAuth2 target-User resolution is in strict priority order.
With the exchange and fetch outcomes fixed to a token and a normalized
profile: an exact (provider, provider-subject-id) match reuses that User and
replaces its link for the provider with the fresh profile (regardless of the
profile's email, so an exact match is never overridden by an email match);
with no exact match, a profile email equal to some User's local identifier
attaches the link to that User; with neither, a brand-new User with the
fresh internal id is appended to the store.  The signup arm runs the very
same resolution. -/
theorem c2_oauth2_resolution_priority
    (store : List User) (provider : OAuth2Provider)
    (tok : OAuth2Token) (info : OAuth2UserInfo)
    (issue : String → TokenPair) (newId : String) (now : Nat) (code st : String)
    (u : User) :
    (get_user_by_oauth_id store provider info.provider_user_id = some u →
      login store (fun _ _ _ => .ok tok) (fun _ => .ok info) issue newId now
          (LoginMethod.OAuth2 provider code st) =
        .ok ({ u with oauth_accounts := insertAccount u.oauth_accounts provider info,
                      updated_at := now },
             issue u.id,
             store.map (fun x =>
               if x.id == u.id then
                 { u with oauth_accounts := insertAccount u.oauth_accounts provider info,
                          updated_at := now }
               else x)) ∧
      lookupAccount (insertAccount u.oauth_accounts provider info) provider = some info) ∧
    (get_user_by_oauth_id store provider info.provider_user_id = none →
      ∀ email, info.email = some email →
        get_user_by_identifier store email = some u →
        login store (fun _ _ _ => .ok tok) (fun _ => .ok info) issue newId now
            (LoginMethod.OAuth2 provider code st) =
          .ok ({ u with oauth_accounts := insertAccount u.oauth_accounts provider info,
                        updated_at := now },
               issue u.id,
               store.map (fun x =>
                 if x.id == u.id then
                   { u with oauth_accounts := insertAccount u.oauth_accounts provider info,
                            updated_at := now }
                 else x))) ∧
    (get_user_by_oauth_id store provider info.provider_user_id = none →
      (match info.email with
       | some email => get_user_by_identifier store email
       | none => none) = none →
      login store (fun _ _ _ => .ok tok) (fun _ => .ok info) issue newId now
          (LoginMethod.OAuth2 provider code st) =
        .ok ({ User.default with
                 id := newId,
                 oauth_accounts := insertAccount User.default.oauth_accounts provider info,
                 created_at := now, updated_at := now },
             issue newId,
             store ++ [{ User.default with
                           id := newId,
                           oauth_accounts :=
                             insertAccount User.default.oauth_accounts provider info,
                           created_at := now, updated_at := now }])) ∧
    (signup store (fun _ _ _ => .ok tok) (fun _ => .ok info) issue newId now
        (SignupMethod.OAuth2 provider code st) =
      login store (fun _ _ _ => .ok tok) (fun _ => .ok info) issue newId now
        (LoginMethod.OAuth2 provider code st)) := by
  refine ⟨?_, ?_, ?_, rfl⟩
  · intro h
    refine ⟨?_, lookupAccount_insertAccount u.oauth_accounts provider info⟩
    have hmem : u ∈ store := by
      unfold get_user_by_oauth_id at h
      exact List.mem_of_find?_eq_some h
    have hupd := update_user_of_mem store
      { u with oauth_accounts := insertAccount u.oauth_accounts provider info,
               updated_at := now } u hmem rfl
    simp only [login, bindOk, h, hupd, pureOk]
  · intro h email hem hu
    have hmem : u ∈ store := by
      unfold get_user_by_identifier at hu
      exact List.mem_of_find?_eq_some hu
    have hupd := update_user_of_mem store
      { u with oauth_accounts := insertAccount u.oauth_accounts provider info,
               updated_at := now } u hmem rfl
    simp only [login, bindOk, h, hem, hu, hupd, pureOk]
  · intro h hnone
    simp only [login, bindOk, h, hnone, pureOk, add_user]

/-- Witness for claim C2: logging in with a fresh profile for the already
linked provider-subject g1 reuses the linked user and refreshes the link. -/
theorem c2_witness :
    ∃ r s2,
      login [gUser] (fun _ _ _ => .ok gTok) (fun _ => .ok g1FreshInfo) issue0 "n" 5
          (LoginMethod.OAuth2 OAuth2Provider.Google "c" "s") =
        .ok (r, issue0 r.id, s2) ∧
      r.id = gUser.id ∧
      lookupAccount r.oauth_accounts OAuth2Provider.Google = some g1FreshInfo := by
  have h := (c2_oauth2_resolution_priority [gUser] OAuth2Provider.Google gTok g1FreshInfo
    issue0 "n" 5 "c" "s" gUser).1 rfl
  exact ⟨_, _, h.1, rfl, h.2⟩

/-- OAuth2-resolved users carry an identity: whichever resolution branch
produced the returned user, its account map contains the freshly inserted
link (cases a and c) or the user kept its prior credentials (case b keeps
them as well), so the returned user has credentials or a non-empty account
map. -/
theorem oauth2_result_has_identity
    (store : List User)
    (exchange : OAuth2Provider → String → String → Except AuthError OAuth2Token)
    (fetch : OAuth2Token → Except AuthError OAuth2UserInfo)
    (issue : String → TokenPair) (newId : String) (now : Nat)
    (provider : OAuth2Provider) (code st : String)
    (u : User) (tp : TokenPair) (s' : List User)
    (h : login store exchange fetch issue newId now (LoginMethod.OAuth2 provider code st) =
      .ok (u, tp, s')) :
    u.credentials.isSome = true ∨ u.oauth_accounts ≠ [] := by
  simp only [login] at h
  cases hex : exchange provider code st with
  | error e =>
    rw [hex] at h
    exact Except.noConfusion h
  | ok tok =>
    rw [hex] at h
    simp only [bindOk] at h
    cases hfe : fetch tok with
    | error e =>
      rw [hfe] at h
      exact Except.noConfusion h
    | ok info =>
      rw [hfe] at h
      simp only [bindOk] at h
      cases hg : get_user_by_oauth_id store provider info.provider_user_id with
      | some w =>
        rw [hg] at h
        simp only [bindOk] at h
        cases hupd : update_user store
            { w with oauth_accounts := insertAccount w.oauth_accounts provider info,
                     updated_at := now } with
        | error e =>
          rw [hupd] at h
          exact Except.noConfusion h
        | ok s2 =>
          rw [hupd] at h
          simp only [bindOk, pureOk] at h
          injection h with h1
          simp only [Prod.mk.injEq] at h1
          obtain ⟨hu, _, _⟩ := h1
          subst hu
          exact Or.inr (insertAccount_ne_nil w.oauth_accounts provider info)
      | none =>
        rw [hg] at h
        simp only [bindOk] at h
        cases hem : (match info.email with
            | some email => get_user_by_identifier store email
            | none => none) with
        | some w =>
          rw [hem] at h
          simp only [bindOk] at h
          cases hupd : update_user store
              { w with oauth_accounts := insertAccount w.oauth_accounts provider info,
                       updated_at := now } with
          | error e =>
            rw [hupd] at h
            exact Except.noConfusion h
          | ok s2 =>
            rw [hupd] at h
            simp only [bindOk, pureOk] at h
            injection h with h1
            simp only [Prod.mk.injEq] at h1
            obtain ⟨hu, _, _⟩ := h1
            subst hu
            exact Or.inr (insertAccount_ne_nil w.oauth_accounts provider info)
        | none =>
          rw [hem] at h
          simp only [bindOk, pureOk] at h
          injection h with h1
          simp only [Prod.mk.injEq] at h1
          obtain ⟨hu, _, _⟩ := h1
          subst hu
          exact Or.inr (insertAccount_ne_nil User.default.oauth_accounts provider info)

/-- Counterexample to claim C3 as stated: unlink-account applied to a User
whose only identity is the unlinked provider's link succeeds and persists a
User with neither local credentials nor any linked account. -/
theorem c3_counterexample :
    unlink_oauth_account [soleUser] "u3" OAuth2Provider.Google =
      .ok (strippedUser, [strippedUser]) ∧
    strippedUser.credentials = none ∧ strippedUser.oauth_accounts = [] :=
  ⟨rfl, rfl, rfl⟩

/-- Claim C3 (amended): every User returned by a successful creation — a
Credentials signup, an OAuth2 login or an OAuth2 signup — has local
credentials, at least one linked external account, or both; the invariant is
however not preserved by unlink-account, which can strip the last identity
(see the counterexample). -/
theorem c3_creation_invariant
    (store : List User)
    (exchange : OAuth2Provider → String → String → Except AuthError OAuth2Token)
    (fetch : OAuth2Token → Except AuthError OAuth2UserInfo)
    (issue : String → TokenPair) (newId : String) (now : Nat) :
    (∀ identifier password u tp s',
      signup store exchange fetch issue newId now
          (SignupMethod.Credentials identifier password) = .ok (u, tp, s') →
      u.credentials.isSome = true) ∧
    (∀ provider code st u tp s',
      login store exchange fetch issue newId now
          (LoginMethod.OAuth2 provider code st) = .ok (u, tp, s') →
      u.credentials.isSome = true ∨ u.oauth_accounts ≠ []) ∧
    (∀ provider code st u tp s',
      signup store exchange fetch issue newId now
          (SignupMethod.OAuth2 provider code st) = .ok (u, tp, s') →
      u.credentials.isSome = true ∨ u.oauth_accounts ≠ []) := by
  refine ⟨?_, ?_, ?_⟩
  · intro identifier password u tp s' h
    simp only [signup, User.with_plain_password, hash_password] at h
    cases hp : password.isEmpty with
    | true =>
      rw [hp] at h
      simp only [eq_self_iff_true, if_true, bindErr] at h
      exact Except.noConfusion h
    | false =>
      rw [hp] at h
      replace h : Except.ok
          (({ id := newId,
              credentials := some { identifier := identifier,
                                    password_hash := hasherHash password },
              oauth_accounts := [], created_at := now, updated_at := now } : User),
           issue newId,
           add_user store
             { id := newId,
               credentials := some { identifier := identifier,
                                     password_hash := hasherHash password },
               oauth_accounts := [], created_at := now, updated_at := now }) =
          Except.ok (u, tp, s') := h
      injection h with h1
      simp only [Prod.mk.injEq] at h1
      obtain ⟨hu, _, _⟩ := h1
      subst hu
      rfl
  · intro provider code st u tp s' h
    exact oauth2_result_has_identity store exchange fetch issue newId now
      provider code st u tp s' h
  · intro provider code st u tp s' h
    exact oauth2_result_has_identity store exchange fetch issue newId now
      provider code st u tp s' h

/-- Witness for claim C3 (amended): the user created by signing up
"bob"/"pw1" has local credentials. -/
theorem c3_witness : bobOne.credentials.isSome = true :=
  (c3_creation_invariant [] exch0 fetch0 issue0 "id1" 0).1 "bob" "pw1" bobOne
    (issue0 "id1") [bobOne] rfl

/-- Claim C8: unlink-account on a provider with no existing link succeeds
and returns the unchanged User rather than an error, and applying
unlink-account twice for the same provider leaves exactly the User state
and store of a single application. -/
theorem c8_unlink_idempotent (store : List User) (uid : String)
    (provider : OAuth2Provider) :
    (∀ u, get_user_by_id store uid = some u →
      lookupAccount u.oauth_accounts provider = none →
      ∃ s', unlink_oauth_account store uid provider = .ok (u, s')) ∧
    (∀ u1 s1, unlink_oauth_account store uid provider = .ok (u1, s1) →
      unlink_oauth_account s1 uid provider = .ok (u1, s1)) := by
  constructor
  · intro u hfind hno
    have hnoop := unlink_noop_of_no_link u provider hno
    have hmem : u ∈ store := by
      unfold get_user_by_id at hfind
      exact List.mem_of_find?_eq_some hfind
    have hupd := update_user_of_mem store u u hmem rfl
    refine ⟨store.map (fun x => if x.id == u.id then u else x), ?_⟩
    simp only [unlink_oauth_account, hfind, bindOk, hnoop, hupd, pureOk]
  · intro u1 s1 h
    simp only [unlink_oauth_account] at h ⊢
    cases hfind : get_user_by_id store uid with
    | none =>
      rw [hfind] at h
      exact Except.noConfusion h
    | some u0 =>
      rw [hfind] at h
      simp only [bindOk] at h
      have hmem0 : u0 ∈ store := by
        unfold get_user_by_id at hfind
        exact List.mem_of_find?_eq_some hfind
      have hupd := update_user_of_mem store (u0.unlink_oauth_account provider) u0 hmem0 rfl
      rw [hupd] at h
      simp only [bindOk, pureOk] at h
      injection h with h1
      simp only [Prod.mk.injEq] at h1
      obtain ⟨hu1, hs1⟩ := h1
      subst hu1
      subst hs1
      have hfind2 : get_user_by_id
          (store.map (fun x =>
            if x.id == (u0.unlink_oauth_account provider).id then
              u0.unlink_oauth_account provider
            else x)) uid = some (u0.unlink_oauth_account provider) := by
        unfold get_user_by_id at hfind ⊢
        exact find?_map_update store uid u0 (u0.unlink_oauth_account provider) hfind rfl
      have hmem2 : u0.unlink_oauth_account provider ∈
          store.map (fun x =>
            if x.id == (u0.unlink_oauth_account provider).id then
              u0.unlink_oauth_account provider
            else x) := by
        unfold get_user_by_id at hfind2
        exact List.mem_of_find?_eq_some hfind2
      have hupd2 := update_user_of_mem
        (store.map (fun x =>
          if x.id == (u0.unlink_oauth_account provider).id then
            u0.unlink_oauth_account provider
          else x))
        (u0.unlink_oauth_account provider) (u0.unlink_oauth_account provider) hmem2 rfl
      simp only [hfind2, bindOk, unlink_idem, hupd2, pureOk, map_update_twice]

/-- Witness for claim C8: unlinking a provider that was never linked returns
the user unchanged. -/
theorem c8_witness :
    ∃ s', unlink_oauth_account [soleUser] "u3" OAuth2Provider.GitHub =
      .ok (soleUser, s') :=
  (c8_unlink_idempotent [soleUser] "u3" OAuth2Provider.GitHub).1 soleUser rfl rfl

/-- Claim C7: for each provider, a user-info response without the
provider-subject-id field fails with OAuthInvalidResponse, while absence of
email, display name, avatar URL, verified-email flag or locale is not an
error and leaves the corresponding field of the normalized profile None
(for GitHub the verified-email flag and locale, and for Microsoft the
avatar URL, verified-email flag and locale, are None unconditionally). -/
theorem c7_parse_user_info_contract (body : Json) (now : Nat) :
    ((body.index "id").as_str = none →
      parse_user_info .Google body now =
        .error (AuthError.OAuthInvalidResponse "Missing user ID")) ∧
    (∀ pid, (body.index "id").as_str = some pid →
      ∃ info, parse_user_info .Google body now = .ok info ∧
        ((body.index "email").as_str = none → info.email = none) ∧
        ((body.index "name").as_str = none → info.name = none) ∧
        ((body.index "picture").as_str = none → info.avatar_url = none) ∧
        ((body.index "verified_email").as_bool = none → info.verified_email = none) ∧
        ((body.index "locale").as_str = none → info.locale = none)) ∧
    ((body.index "id").as_u64 = none →
      parse_user_info .GitHub body now =
        .error (AuthError.OAuthInvalidResponse "Missing user ID")) ∧
    (∀ idn, (body.index "id").as_u64 = some idn →
      ∃ info, parse_user_info .GitHub body now = .ok info ∧
        ((body.index "email").as_str = none → info.email = none) ∧
        ((body.index "name").as_str = none → info.name = none) ∧
        ((body.index "avatar_url").as_str = none → info.avatar_url = none) ∧
        info.verified_email = none ∧
        info.locale = none) ∧
    ((body.index "id").as_str = none →
      parse_user_info .Discord body now =
        .error (AuthError.OAuthInvalidResponse "Missing user ID")) ∧
    (∀ pid, (body.index "id").as_str = some pid →
      ∃ info, parse_user_info .Discord body now = .ok info ∧
        ((body.index "email").as_str = none → info.email = none) ∧
        ((body.index "username").as_str = none → info.name = none) ∧
        ((body.index "avatar").as_str = none → info.avatar_url = none) ∧
        ((body.index "verified").as_bool = none → info.verified_email = none) ∧
        ((body.index "locale").as_str = none → info.locale = none)) ∧
    ((body.index "id").as_str = none →
      parse_user_info .Microsoft body now =
        .error (AuthError.OAuthInvalidResponse "Missing user ID")) ∧
    (∀ pid, (body.index "id").as_str = some pid →
      ∃ info, parse_user_info .Microsoft body now = .ok info ∧
        ((body.index "mail").as_str = none →
          (body.index "userPrincipalName").as_str = none → info.email = none) ∧
        ((body.index "displayName").as_str = none → info.name = none) ∧
        info.avatar_url = none ∧
        info.verified_email = none ∧
        info.locale = none) := by
  refine ⟨?_, ?_, ?_, ?_, ?_, ?_, ?_, ?_⟩
  · intro h
    simp only [parse_user_info, h]
  · intro pid h
    simp only [parse_user_info, h]
    refine ⟨_, rfl, ?_, ?_, ?_, ?_, ?_⟩ <;> intro hx <;> simp [hx]
  · intro h
    simp only [parse_user_info, h]
  · intro idn h
    simp only [parse_user_info, h]
    refine ⟨_, rfl, ?_, ?_, ?_, rfl, rfl⟩ <;> intro hx <;> simp [hx]
  · intro h
    simp only [parse_user_info, h]
  · intro pid h
    simp only [parse_user_info, h]
    refine ⟨_, rfl, ?_, ?_, ?_, ?_, ?_⟩ <;> intro hx <;> simp [hx]
  · intro h
    simp only [parse_user_info, h]
  · intro pid h
    simp only [parse_user_info, h]
    refine ⟨_, rfl, ?_, ?_, rfl, rfl, rfl⟩
    · intro h1 h2
      simp [h1, h2]
    · intro hx
      simp [hx]

/-- Witness for claim C7: the empty JSON object is rejected by every
provider for want of a subject id, and a Google body carrying only an id
parses with a None email. -/
theorem c7_witness :
    parse_user_info .Google (Json.obj []) 0 =
      .error (AuthError.OAuthInvalidResponse "Missing user ID") ∧
    parse_user_info .GitHub (Json.obj []) 0 =
      .error (AuthError.OAuthInvalidResponse "Missing user ID") ∧
    parse_user_info .Discord (Json.obj []) 0 =
      .error (AuthError.OAuthInvalidResponse "Missing user ID") ∧
    parse_user_info .Microsoft (Json.obj []) 0 =
      .error (AuthError.OAuthInvalidResponse "Missing user ID") ∧
    (∃ info, parse_user_info .Google (Json.obj [("id", Json.str "g")]) 0 = .ok info ∧
      info.email = none) := by
  have h := c7_parse_user_info_contract (Json.obj []) 0
  have h2 := c7_parse_user_info_contract (Json.obj [("id", Json.str "g")]) 0
  refine ⟨h.1 rfl, h.2.2.1 rfl, h.2.2.2.2.1 rfl, h.2.2.2.2.2.2.1 rfl, ?_⟩
  obtain ⟨info, hi, he, _⟩ := h2.2.1 "g" rfl
  exact ⟨info, hi, he rfl⟩

end Cryptic
